import Mathlib

set_option linter.unusedVariables false

/-!
Shallow embedding of src/processes/process_item.py: the resilient request
executor (safe_request, lines 154-198), the paginated collector
(get_all_chromebooks, lines 112-151) and the record normalizer (the
per-device loop body of process_item, lines 50-72).
-/

/-- Truthiness of an optional Python string: None and the empty string are
falsy, every other string is truthy. -/
def pyTruthy : Option String → Bool
  | none => false
  | some s => decide (s ≠ "")

/-- Models the Python expression (x or None) on an optional string, as used at
lines 67-68 of process_item.py: a falsy value (absent or empty) becomes None,
any other value is kept. -/
def orNone (x : Option String) : Option String :=
  if pyTruthy x then x else none

/-- Models the Python substring membership test (pat in hay) used at line 170
of process_item.py. -/
def strContains (hay pat : String) : Bool :=
  hay.data.tails.any (fun t => pat.data.isPrefixOf t)

/-! ## Resilient Request Executor: safe_request (lines 154-198) -/

/-- Outcome of one HTTP GET attempt: a raised requests.RequestException
(caught at line 187), or a response carrying a status code and a body text. -/
inductive Outcome where
  | exn : Outcome
  | resp (status : Nat) (text : String) : Outcome

/-- Observable effects of one safe_request call: how many GET requests were
issued and, for each backoff sleep at line 195, the pair (backoff base,
jitter); the slept duration is their sum, per line 193. -/
structure SRTrace where
  requests : Nat
  sleeps : List (Nat × ℚ)
deriving DecidableEq

/-- Result of safe_request: a returned response (status code and body text),
or a raised RuntimeError carrying its message. -/
inductive SRResult where
  | returned (status : Nat) (text : String) : SRResult
  | raised (msg : String) : SRResult
deriving DecidableEq

/-- The rate-limit marker substring checked at line 170 of process_item.py. -/
def rateLimitMarker : String := "rateLimitExceeded"

/-- Message of the RuntimeError raised at line 191 of process_item.py. -/
def runtimeErrorMsg (max_retries : Nat) (url : String) : String :=
  "Failed after " ++ toString max_retries ++ " attempts: " ++ url

/-- Message of the RuntimeError raised at line 198 of process_item.py (the
fall-through after the loop, unreachable when max_retries is at least 1). -/
def fellThroughMsg : String := "safe_request() fell through unexpectedly"

/-- Classification of a response by the if/elif chain of lines 163-185 of
process_item.py, in source order: true when the branch falls through to the
sleep-and-retry logic, false when the branch returns the response as-is.
2xx: success, return. 429: retry. 403: retry exactly when the body contains
the rate-limit marker, otherwise return. Other 4xx: return. 5xx: retry.
Anything else: return. All the return branches hand the response back
unchanged, so they are merged here into the single value false. -/
def respRetryable (s : Nat) (t : String) : Bool :=
  if 200 ≤ s ∧ s < 300 then false
  else if s = 429 then true
  else if s = 403 then strContains t rateLimitMarker
  else if 400 ≤ s ∧ s < 500 then false
  else if 500 ≤ s ∧ s < 600 then true
  else false

/-- Retryability of a whole attempt outcome: a transport exception is
retryable (lines 187-188), a response is classified by the status chain. -/
def retryableOutcome : Outcome → Bool
  | .exn => true
  | .resp s t => respRetryable s t

/-- Trace update for an attempt that issues one GET request (line 161). -/
def trReq (tr : SRTrace) : SRTrace :=
  { tr with requests := tr.requests + 1 }

/-- Trace update for an attempt that issues one GET request and then sleeps
for backoff plus jitter before the next attempt (lines 193-195). -/
def trSleep (tr : SRTrace) (backoff : Nat) (j : ℚ) : SRTrace :=
  { requests := tr.requests + 1, sleeps := tr.sleeps ++ [(backoff, j)] }

/-- The retry loop of lines 159-196 of process_item.py. The network is
modelled by net (the outcome of the i-th attempt, 1-based) and the
random.random() jitter stream by jit (the jitter slept after the i-th
attempt, a value in the interval from 0 inclusive to 1 exclusive); remaining
is the number of loop iterations left, so the loop over
range(1, max_retries + 1) starts with remaining = max_retries, attempt = 1
and backoff = 1. When the iterations are exhausted the function reaches the
final raise of line 198. -/
def safeRequestGo (net : Nat → Outcome) (jit : Nat → ℚ) (url : String)
    (max_retries : Nat) : Nat → Nat → Nat → SRTrace → SRResult × SRTrace
  | 0, _, _, tr => (.raised fellThroughMsg, tr)
  | remaining + 1, attempt, backoff, tr =>
    let retry : SRResult × SRTrace :=
      if attempt = max_retries then
        (.raised (runtimeErrorMsg max_retries url), trReq tr)
      else
        safeRequestGo net jit url max_retries remaining (attempt + 1)
          (backoff * 2) (trSleep tr backoff (jit attempt))
    match net attempt with
    | .exn => retry
    | .resp s t => if respRetryable s t then retry else (.returned s t, trReq tr)

/-- Entry point of safe_request (line 154): backoff starts at 1, the attempt
counter at 1, and max_retries iterations are available (default 5 at the
call sites). -/
def safe_request (net : Nat → Outcome) (jit : Nat → ℚ) (url : String)
    (max_retries : Nat) : SRResult × SRTrace :=
  safeRequestGo net jit url max_retries max_retries 1 1 ⟨0, []⟩

/-! ## Paginated Collector: get_all_chromebooks (lines 112-151) -/

/-- Raw device record as returned by the directory API: the loosely typed
mapping read with dict.get in process_item.py; an absent key reads as None. -/
structure DeviceRecord where
  deviceId : Option String
  serialNumber : Option String
  macAddress : Option String
  model : Option String
  status : Option String
  orgUnitPath : Option String
  lastSync : Option String
deriving DecidableEq

/-- One page of the server response: the chromeosdevices list (absent key
defaults to the empty list, line 136) and the optional nextPageToken
(line 144). -/
structure Page where
  chromeosdevices : List DeviceRecord
  nextPageToken : Option String
deriving DecidableEq

/-- Errors a collector run can raise: the IndexError raised by the debug
print of line 138 when a page has an empty device list, or the model-level
marker for a server that yields no page when one more request is issued. -/
inductive CollectError where
  | indexError : CollectError
  | noServerPage : CollectError
deriving DecidableEq

/-- Observable output of one collector run: the accumulated device list and
the request URLs issued, in order. -/
structure CollectOut where
  devices : List DeviceRecord
  urls : List String
deriving DecidableEq

/-- The base URL of lines 115-118 of process_item.py. -/
def base_url : String :=
  "https://admin.googleapis.com/admin/directory/v1/customer/my_customer/devices/chromeos?projection=FULL&maxResults=300"

/-- The URL built at line 132: the pageToken parameter is appended exactly
when the cursor is truthy (present and non-empty). -/
def pageUrl (next_page : Option String) : String :=
  base_url ++ (if pyTruthy next_page then "&pageToken=" ++ next_page.getD "" else "")

/-- The while-True loop of lines 131-148 of process_item.py. The server is
modelled by the list of pages it returns, consumed one per request; cursor
is the next_page variable, urls and acc the accumulated request URLs and
device lists. Each iteration requests one page (line 133), evaluates the
debug print of line 138 (which raises IndexError when the page device list
is empty), extends the accumulator (line 142), and stops exactly when the
nextPageToken is falsy (line 145). -/
def collectGo : List Page → Option String → List String → List DeviceRecord →
    Except CollectError CollectOut
  | [], _, _, _ => .error .noServerPage
  | p :: rest, cursor, urls, acc =>
    match p.chromeosdevices with
    | [] => .error .indexError
    | _ :: _ =>
      if pyTruthy p.nextPageToken then
        collectGo rest p.nextPageToken (urls ++ [pageUrl cursor]) (acc ++ p.chromeosdevices)
      else
        .ok ⟨acc ++ p.chromeosdevices, urls ++ [pageUrl cursor]⟩

/-- Entry point of get_all_chromebooks (line 112): next_page starts as None,
the accumulators empty. -/
def get_all_chromebooks (pages : List Page) : Except CollectError CollectOut :=
  collectGo pages none [] []

/-- A server page sequence whose continuation cursors chain c1, c2, ... and
end in a page with a falsy token: every page except the last carries a
truthy nextPageToken and the last page a falsy one. -/
def cursorsChain : List Page → Bool
  | [] => false
  | [p] => !(pyTruthy p.nextPageToken)
  | p :: rest => pyTruthy p.nextPageToken && cursorsChain rest

/-! ## Record Normalizer: the per-device loop body of process_item (lines 50-72)

The last-sync parsing of lines 55-62 calls the Python standard library:
datetime.fromisoformat on the raw value with every occurrence of "Z"
replaced by "+00:00", followed by .date(). The definitions below model that
library behaviour (CPython 3.10 fromisoformat grammar, date component
validation by the datetime constructor, offset range validation by the
timezone constructor); a parse failure is the exception caught at line 61. -/

/-- A calendar date as produced by datetime.date: the result of calling
.date() on the parsed datetime at line 59, time-of-day and timezone
discarded. -/
structure PDate where
  year : Nat
  month : Nat
  day : Nat
deriving DecidableEq

/-- Models Python str.replace specialised to the single-character pattern "Z"
used at line 57: every occurrence of the character Z is replaced by the
six characters of "+00:00". -/
def replaceZchars : List Char → List Char
  | [] => []
  | c :: rest => (if c = 'Z' then "+00:00".data else [c]) ++ replaceZchars rest

/-- Numeric value of a decimal digit character. -/
def digitVal (c : Char) : Nat := c.toNat - 48

/-- Leap-year rule of the proleptic Gregorian calendar used by datetime. -/
def isLeap (y : Nat) : Bool := y % 4 = 0 && (y % 100 ≠ 0 || y % 400 = 0)

/-- Days in a month as validated by the datetime.date constructor. -/
def daysInMonth (y m : Nat) : Nat :=
  if m = 2 then (if isLeap y then 29 else 28)
  else if m = 4 ∨ m = 6 ∨ m = 9 ∨ m = 11 then 30
  else 31

/-- Parse exactly two decimal digit characters, returning their value and the
rest of the input. -/
def p2 : List Char → Option (Nat × List Char)
  | a :: b :: rest =>
    if a.isDigit ∧ b.isDigit then some (10 * digitVal a + digitVal b, rest)
    else none
  | _ => none

/-- Models CPython _parse_hh_mm_ss_ff: hours, then optionally a colon and
minutes, a colon and seconds, and a dot followed by exactly three or six
fractional digits. The fraction is validated and discarded, since .date()
drops the time anyway. Returns none where the library raises. -/
def parseHMSF (cs : List Char) : Option (Nat × Nat × Nat) :=
  match p2 cs with
  | none => none
  | some (hh, rest) =>
    match rest with
    | [] => some (hh, 0, 0)
    | c1 :: rest2 =>
      if c1 = ':' then
        match p2 rest2 with
        | none => none
        | some (mm, rest3) =>
          match rest3 with
          | [] => some (hh, mm, 0)
          | c2 :: rest4 =>
            if c2 = ':' then
              match p2 rest4 with
              | none => none
              | some (ss, rest5) =>
                match rest5 with
                | [] => some (hh, mm, ss)
                | c3 :: frac =>
                  if c3 = '.' ∧ (frac.length = 3 ∨ frac.length = 6) ∧
                      frac.all (fun c => c.isDigit) then
                    some (hh, mm, ss)
                  else none
            else none
      else none

/-- Split the time part of an isoformat string at the first plus or minus
sign, the separator CPython uses to find the UTC-offset part. -/
def splitTz : List Char → List Char × Option (Char × List Char)
  | [] => ([], none)
  | c :: rest =>
    if c = '+' ∨ c = '-' then ([], some (c, rest))
    else
      let r := splitTz rest
      (c :: r.1, r.2)

/-- Models CPython _parse_isoformat_time plus the component validation done
by the time and timezone constructors: the part before any sign must be
HH[:MM[:SS[.fff or .ffffff]]] with hour at most 23, minute and second at
most 59; an offset part after the sign must have the exact length of
HH:MM, HH:MM:SS or HH:MM:SS.ffffff and denote a total strictly below 24
hours (offset components are not individually range-checked, the timedelta
normalises them). -/
def validTimeTail (tcs : List Char) : Bool :=
  let sp := splitTz tcs
  match parseHMSF sp.1 with
  | none => false
  | some (hh, mm, ss) =>
    if hh ≤ 23 ∧ mm ≤ 59 ∧ ss ≤ 59 then
      match sp.2 with
      | none => true
      | some (_sign, ocs) =>
        if ocs.length = 5 ∨ ocs.length = 8 ∨ ocs.length = 15 then
          match parseHMSF ocs with
          | none => false
          | some (oh, om, os) => decide (3600 * oh + 60 * om + os < 86400)
        else false
    else false

/-- Models datetime.fromisoformat followed by .date() (CPython 3.10): the
first ten characters must be a valid YYYY-MM-DD date with year at least 1;
character eleven, when present, is a separator that is never examined; the
characters after it, when any, must form a valid time tail. Returns the
calendar date, none where the library raises. -/
def fromisoformatDate (cs : List Char) : Option PDate :=
  match cs with
  | y1 :: y2 :: y3 :: y4 :: s1 :: m1 :: m2 :: s2 :: d1 :: d2 :: rest =>
    if s1 = '-' ∧ s2 = '-' ∧ y1.isDigit ∧ y2.isDigit ∧ y3.isDigit ∧ y4.isDigit ∧
        m1.isDigit ∧ m2.isDigit ∧ d1.isDigit ∧ d2.isDigit then
      let y := 1000 * digitVal y1 + 100 * digitVal y2 + 10 * digitVal y3 + digitVal y4
      let mo := 10 * digitVal m1 + digitVal m2
      let dd := 10 * digitVal d1 + digitVal d2
      if 1 ≤ y ∧ 1 ≤ mo ∧ mo ≤ 12 ∧ 1 ≤ dd ∧ dd ≤ daysInMonth y mo then
        match rest with
        | [] => some ⟨y, mo, dd⟩
        | [_] => some ⟨y, mo, dd⟩
        | _ :: tcs => if validTimeTail tcs then some ⟨y, mo, dd⟩ else none
      else none
    else none
  | _ => none

/-- The parse of line 57 and the .date() of line 59: replace Z, parse as an
isoformat datetime, take the calendar date; none models the caught
exception of line 61. -/
def parseLastSync (s : String) : Option PDate :=
  fromisoformatDate (replaceZchars s.data)

/-- The normalized 7-tuple appended to tvp_rows at lines 64-72. -/
structure NormalizedRow where
  device_id : Option String
  serial_number : Option String
  mac_address : Option String
  model : Option String
  status : Option String
  last_sync_date : Option PDate
  org_unit : Option String
deriving DecidableEq

/-- The loop body of lines 50-72 of process_item.py for one raw device
record: last_sync_date starts as None, is parsed only when the raw value is
truthy, and any parse failure leaves it None; the tuple fields come from
dict.get, with (or None) applied to macAddress and model only. -/
def normalizeDevice (d : DeviceRecord) : NormalizedRow :=
  let last_sync_date : Option PDate :=
    match d.lastSync with
    | none => none
    | some s => if s = "" then none else parseLastSync s
  { device_id := d.deviceId
    serial_number := d.serialNumber
    mac_address := orNone d.macAddress
    model := orNone d.model
    status := d.status
    last_sync_date := last_sync_date
    org_unit := d.orgUnitPath }

/-- Decimal digit character for a value below ten. -/
def dChar (n : Nat) : Char := Char.ofNat (48 + n)

/-- Two-digit zero-padded decimal rendering of a number below 100. -/
def pad2 (n : Nat) : List Char := [dChar (n / 10), dChar (n % 10)]

/-- Four-digit zero-padded decimal rendering of a number below 10000. -/
def pad4 (n : Nat) : List Char :=
  [dChar (n / 1000), dChar (n / 100 % 10), dChar (n / 10 % 10), dChar (n % 10)]

/-- A well-formed ISO-8601 timestamp YYYY-MM-DDTHH:MI:SS with a literal Z
suffix, as the directory API emits for lastSync. -/
def isoZString (y mo dd hh mi ss : Nat) : String :=
  ⟨pad4 y ++ [ '-' ] ++ pad2 mo ++ [ '-' ] ++ pad2 dd ++ [ 'T' ] ++
    pad2 hh ++ [ ':' ] ++ pad2 mi ++ [ ':' ] ++ pad2 ss ++ [ 'Z' ]⟩

/-! ## Helper lemmas about the executor -/

/-- A response in the 2xx range is returned, not retried. -/
lemma respRetryable_2xx {s : Nat} (t : String) (h1 : 200 ≤ s) (h2 : s < 300) :
    respRetryable s t = false := by
  unfold respRetryable
  rw [if_pos ⟨h1, h2⟩]

/-- A 403 whose body lacks the rate-limit marker is returned, not retried. -/
lemma respRetryable_403_nomarker {t : String}
    (h : strContains t rateLimitMarker = false) : respRetryable 403 t = false := by
  simp [respRetryable, h]

/-- A 403 whose body contains the rate-limit marker is retried. -/
lemma respRetryable_403_marker {t : String}
    (h : strContains t rateLimitMarker = true) : respRetryable 403 t = true := by
  simp [respRetryable, h]

/-- Any 4xx other than 429 and 403 is returned, not retried. -/
lemma respRetryable_4xx {s : Nat} (t : String) (h1 : 400 ≤ s) (h2 : s < 500)
    (h3 : s ≠ 429) (h4 : s ≠ 403) : respRetryable s t = false := by
  unfold respRetryable
  rw [if_neg (by omega), if_neg h3, if_neg h4, if_pos ⟨h1, h2⟩]

/-- A 5xx response is retried. -/
lemma respRetryable_5xx (s : Nat) (t : String) (h1 : 500 ≤ s) (h2 : s < 600) :
    respRetryable s t = true := by
  unfold respRetryable
  rw [if_neg (by omega), if_neg (by omega), if_neg (by omega), if_neg (by omega),
    if_pos ⟨h1, h2⟩]

/-- One loop iteration on a retryable outcome: raise when the attempt counter
has reached max_retries, otherwise sleep and continue with doubled backoff. -/
lemma safeRequestGo_retry_step (net : Nat → Outcome) (jit : Nat → ℚ) (url : String)
    (max_retries r attempt backoff : Nat) (tr : SRTrace)
    (h : retryableOutcome (net attempt) = true) :
    safeRequestGo net jit url max_retries (r + 1) attempt backoff tr =
      if attempt = max_retries then
        (.raised (runtimeErrorMsg max_retries url), trReq tr)
      else
        safeRequestGo net jit url max_retries r (attempt + 1) (backoff * 2)
          (trSleep tr backoff (jit attempt)) := by
  cases hn : net attempt with
  | exn => simp [safeRequestGo, hn]
  | resp s t =>
    have hs : respRetryable s t = true := by
      simpa [retryableOutcome, hn] using h
    simp [safeRequestGo, hn, hs]

/-- One loop iteration on a non-retryable response: the response is returned
as-is with no sleep. -/
lemma safeRequestGo_return_step (net : Nat → Outcome) (jit : Nat → ℚ) (url : String)
    (max_retries r attempt backoff : Nat) (tr : SRTrace) {s : Nat} {t : String}
    (hn : net attempt = .resp s t) (hs : respRetryable s t = false) :
    safeRequestGo net jit url max_retries (r + 1) attempt backoff tr =
      (.returned s t, trReq tr) := by
  simp [safeRequestGo, hn, hs]

/-- Every loop iteration either stops with one more request counted, or
recurses after one request and one sleep. -/
lemma safeRequestGo_succ_cases (net : Nat → Outcome) (jit : Nat → ℚ) (url : String)
    (max_retries r attempt backoff : Nat) (tr : SRTrace) :
    (∃ res, safeRequestGo net jit url max_retries (r + 1) attempt backoff tr =
      (res, trReq tr)) ∨
    (attempt ≠ max_retries ∧
      safeRequestGo net jit url max_retries (r + 1) attempt backoff tr =
        safeRequestGo net jit url max_retries r (attempt + 1) (backoff * 2)
          (trSleep tr backoff (jit attempt))) := by
  cases hn : net attempt with
  | exn =>
    by_cases h : attempt = max_retries
    · exact Or.inl ⟨.raised (runtimeErrorMsg max_retries url),
        by subst h; simp [safeRequestGo, hn]⟩
    · exact Or.inr ⟨h, by simp [safeRequestGo, hn, h]⟩
  | resp s t =>
    cases hs : respRetryable s t with
    | false => exact Or.inl ⟨.returned s t, by simp [safeRequestGo, hn, hs]⟩
    | true =>
      by_cases h : attempt = max_retries
      · exact Or.inl ⟨.raised (runtimeErrorMsg max_retries url),
          by subst h; simp [safeRequestGo, hn, hs]⟩
      · exact Or.inr ⟨h, by simp [safeRequestGo, hn, hs, h]⟩

/-- The request counter never decreases along the loop. -/
lemma safeRequestGo_requests_mono (net : Nat → Outcome) (jit : Nat → ℚ)
    (url : String) (max_retries : Nat) :
    ∀ r attempt backoff (tr : SRTrace),
      tr.requests ≤ (safeRequestGo net jit url max_retries r attempt backoff tr).2.requests := by
  intro r
  induction r with
  | zero => intro attempt backoff tr; simp [safeRequestGo]
  | succ n ih =>
    intro attempt backoff tr
    rcases safeRequestGo_succ_cases net jit url max_retries n attempt backoff tr with
      ⟨res, heq⟩ | ⟨hne, heq⟩
    · rw [heq]; simp [trReq]
    · rw [heq]
      calc tr.requests ≤ (trSleep tr backoff (jit attempt)).requests := by
            simp [trSleep]
        _ ≤ _ := ih (attempt + 1) (backoff * 2) _

/-- At least one more request is issued when at least one iteration remains. -/
lemma safeRequestGo_requests_lower (net : Nat → Outcome) (jit : Nat → ℚ)
    (url : String) (max_retries r attempt backoff : Nat) (tr : SRTrace) :
    tr.requests + 1 ≤
      (safeRequestGo net jit url max_retries (r + 1) attempt backoff tr).2.requests := by
  rcases safeRequestGo_succ_cases net jit url max_retries r attempt backoff tr with
    ⟨res, heq⟩ | ⟨hne, heq⟩
  · rw [heq]; simp [trReq]
  · rw [heq]
    have := safeRequestGo_requests_mono net jit url max_retries r (attempt + 1)
      (backoff * 2) (trSleep tr backoff (jit attempt))
    simpa [trSleep] using this

/-- Resource bounds of the loop: with the loop invariant
attempt + remaining = max_retries + 1, at most remaining further requests are
issued and at most remaining - 1 further sleeps are performed. -/
lemma safeRequestGo_bounds (net : Nat → Outcome) (jit : Nat → ℚ) (url : String)
    (max_retries : Nat) :
    ∀ r attempt backoff (tr : SRTrace), attempt + r = max_retries + 1 →
      (safeRequestGo net jit url max_retries r attempt backoff tr).2.requests ≤
        tr.requests + r ∧
      (safeRequestGo net jit url max_retries r attempt backoff tr).2.sleeps.length ≤
        tr.sleeps.length + (r - 1) := by
  intro r
  induction r with
  | zero => intro attempt backoff tr hsum; simp [safeRequestGo]
  | succ n ih =>
    intro attempt backoff tr hsum
    rcases safeRequestGo_succ_cases net jit url max_retries n attempt backoff tr with
      ⟨res, heq⟩ | ⟨hne, heq⟩
    · rw [heq]
      constructor
      · simp [trReq]
      · simp [trReq]
    · rw [heq]
      have hn1 : 1 ≤ n := by omega
      have := ih (attempt + 1) (backoff * 2) (trSleep tr backoff (jit attempt)) (by omega)
      constructor
      · calc (safeRequestGo net jit url max_retries n (attempt + 1) (backoff * 2)
              (trSleep tr backoff (jit attempt))).2.requests ≤
            (trSleep tr backoff (jit attempt)).requests + n := this.1
          _ = tr.requests + (n + 1) := by simp [trSleep]; omega
      · calc (safeRequestGo net jit url max_retries n (attempt + 1) (backoff * 2)
              (trSleep tr backoff (jit attempt))).2.sleeps.length ≤
            (trSleep tr backoff (jit attempt)).sleeps.length + (n - 1) := this.2
          _ ≤ tr.sleeps.length + (n + 1 - 1) := by simp [trSleep]; omega

/-- When every attempt up to max_retries is retryable, the loop ends in the
RuntimeError of line 191. -/
lemma safeRequestGo_exhaust (net : Nat → Outcome) (jit : Nat → ℚ) (url : String)
    (max_retries : Nat) :
    ∀ r attempt backoff (tr : SRTrace), attempt + r = max_retries + 1 → 1 ≤ r →
      (∀ i, attempt ≤ i → i ≤ max_retries → retryableOutcome (net i) = true) →
      (safeRequestGo net jit url max_retries r attempt backoff tr).1 =
        .raised (runtimeErrorMsg max_retries url) := by
  intro r
  induction r with
  | zero => intro attempt backoff tr hsum hone; omega
  | succ n ih =>
    intro attempt backoff tr hsum hone hr
    have hatt : retryableOutcome (net attempt) = true :=
      hr attempt le_rfl (by omega)
    rw [safeRequestGo_retry_step net jit url max_retries n attempt backoff tr hatt]
    by_cases h : attempt = max_retries
    · simp [h]
    · have hn1 : 1 ≤ n := by omega
      rw [if_neg h]
      exact ih (attempt + 1) (backoff * 2) _ (by omega) hn1
        (fun i hi1 hi2 => hr i (by omega) hi2)

/-! ## Claims about the executor -/

/-- C5: for every HTTP response with status in the range from 200 inclusive
to 300 exclusive, safe_request returns that response on the first attempt,
with exactly one request issued and no sleep performed. -/
theorem c5_success_first (net : Nat → Outcome) (jit : Nat → ℚ) (url : String)
    (max_retries s : Nat) (t : String) (hm : 1 ≤ max_retries)
    (hn : net 1 = .resp s t) (h1 : 200 ≤ s) (h2 : s < 300) :
    safe_request net jit url max_retries = (.returned s t, ⟨1, []⟩) := by
  obtain ⟨k, rfl⟩ : ∃ k, max_retries = k + 1 := ⟨max_retries - 1, by omega⟩
  unfold safe_request
  rw [safeRequestGo_return_step net jit url (k + 1) k 1 1 ⟨0, []⟩ hn
    (respRetryable_2xx t h1 h2)]
  rfl

/-- C5 witness: a constant 200 response is returned at once. -/
theorem c5_success_first_witness :
    safe_request (fun _ => .resp 200 "ok") (fun _ => 0) "u" 5 =
      (.returned 200 "ok", ⟨1, []⟩) :=
  c5_success_first (fun _ => .resp 200 "ok") (fun _ => 0) "u" 5 200 "ok"
    (by norm_num) rfl (by norm_num) (by norm_num)

/-- C4: a 403 response whose body lacks the rate-limit marker, and any other
4xx status besides 429 (and besides a marked 403), is returned immediately
as-is on the first attempt with no retry and no exception; a 403 whose body
contains the marker is retried, so a second request is issued. -/
theorem c4_terminal_403 (net : Nat → Outcome) (jit : Nat → ℚ) (url : String)
    (max_retries s : Nat) (t : String) (hm : 1 ≤ max_retries)
    (hn : net 1 = .resp s t) :
    (s = 403 → strContains t rateLimitMarker = false →
      safe_request net jit url max_retries = (.returned s t, ⟨1, []⟩)) ∧
    (400 ≤ s → s < 500 → s ≠ 429 → s ≠ 403 →
      safe_request net jit url max_retries = (.returned s t, ⟨1, []⟩)) ∧
    (s = 403 → strContains t rateLimitMarker = true → 2 ≤ max_retries →
      2 ≤ (safe_request net jit url max_retries).2.requests) := by
  obtain ⟨k, rfl⟩ : ∃ k, max_retries = k + 1 := ⟨max_retries - 1, by omega⟩
  refine ⟨?_, ?_, ?_⟩
  · intro h403 hmark
    subst h403
    unfold safe_request
    rw [safeRequestGo_return_step net jit url (k + 1) k 1 1 ⟨0, []⟩ hn
      (respRetryable_403_nomarker hmark)]
    rfl
  · intro h1 h2 h3 h4
    unfold safe_request
    rw [safeRequestGo_return_step net jit url (k + 1) k 1 1 ⟨0, []⟩ hn
      (respRetryable_4xx t h1 h2 h3 h4)]
    rfl
  · intro h403 hmark hm2
    subst h403
    obtain ⟨k2, rfl⟩ : ∃ k2, k = k2 + 1 := ⟨k - 1, by omega⟩
    unfold safe_request
    rw [safeRequestGo_retry_step net jit url (k2 + 2) (k2 + 1) 1 1 ⟨0, []⟩
      (by simp [retryableOutcome, hn, respRetryable_403_marker hmark])]
    rw [if_neg (by omega)]
    have := safeRequestGo_requests_lower net jit url (k2 + 2) k2 2 2
      (trSleep ⟨0, []⟩ 1 (jit 1))
    simpa [trSleep] using this

/-- C4 witness: an unmarked 403 is returned as-is, a 404 is returned as-is,
and a marked 403 leads to a second request. -/
theorem c4_terminal_403_witness :
    (safe_request (fun _ => .resp 403 "forbidden") (fun _ => 0) "u" 5 =
      (.returned 403 "forbidden", ⟨1, []⟩)) ∧
    (safe_request (fun _ => .resp 404 "missing") (fun _ => 0) "u" 5 =
      (.returned 404 "missing", ⟨1, []⟩)) ∧
    2 ≤ (safe_request (fun _ => .resp 403 "rateLimitExceeded") (fun _ => 0) "u" 5).2.requests := by
  refine ⟨?_, ?_, ?_⟩
  · exact (c4_terminal_403 (fun _ => .resp 403 "forbidden") (fun _ => 0) "u" 5 403
      "forbidden" (by norm_num) rfl).1 rfl (by decide)
  · exact (c4_terminal_403 (fun _ => .resp 404 "missing") (fun _ => 0) "u" 5 404
      "missing" (by norm_num) rfl).2.1 (by norm_num) (by norm_num) (by norm_num)
      (by norm_num)
  · exact (c4_terminal_403 (fun _ => .resp 403 "rateLimitExceeded") (fun _ => 0)
      "u" 5 403 "rateLimitExceeded" (by norm_num) rfl).2.2 rfl (by decide)
      (by norm_num)

/-- C6: on two retryable 503 responses followed by a 200, safe_request (with
the default maximum of 5 attempts) returns the success response after exactly
two backoff sleeps; backoff starts at 1 and doubles after each sleep, so the
recorded sleep bases are 1 and then 2, the second double the first, and each
slept duration is its base plus a jitter value drawn from the interval from 0
inclusive to 1 exclusive. -/
theorem c6_two_backoffs (net : Nat → Outcome) (jit : Nat → ℚ) (url : String)
    (ta tb t : String) (h1 : net 1 = .resp 503 ta) (h2 : net 2 = .resp 503 tb)
    (h3 : net 3 = .resp 200 t) (hj : ∀ i, 0 ≤ jit i ∧ jit i < 1) :
    safe_request net jit url 5 = (.returned 200 t, ⟨3, [(1, jit 1), (2, jit 2)]⟩) ∧
    ∀ p ∈ (safe_request net jit url 5).2.sleeps,
      (p.1 : ℚ) ≤ (p.1 : ℚ) + p.2 ∧ (p.1 : ℚ) + p.2 < (p.1 : ℚ) + 1 := by
  have hmain : safe_request net jit url 5 =
      (.returned 200 t, ⟨3, [(1, jit 1), (2, jit 2)]⟩) := by
    unfold safe_request
    rw [safeRequestGo_retry_step net jit url 5 4 1 1 ⟨0, []⟩
      (by simp [retryableOutcome, h1, respRetryable_5xx 503 ta (by norm_num) (by norm_num)])]
    rw [if_neg (by omega)]
    rw [safeRequestGo_retry_step net jit url 5 3 2 2 (trSleep ⟨0, []⟩ 1 (jit 1))
      (by simp [retryableOutcome, h2, respRetryable_5xx 503 tb (by norm_num) (by norm_num)])]
    rw [if_neg (by omega)]
    rw [safeRequestGo_return_step net jit url 5 2 3 4
      (trSleep (trSleep ⟨0, []⟩ 1 (jit 1)) 2 (jit 2)) h3
      (respRetryable_2xx t (by norm_num) (by norm_num))]
    simp [trReq, trSleep]
  refine ⟨hmain, ?_⟩
  rw [hmain]
  intro p hp
  simp only [List.mem_cons, List.not_mem_nil, or_false] at hp
  rcases hp with rfl | rfl
  · have := hj 1
    constructor <;> [linarith [this.1]; linarith [this.2]]
  · have := hj 2
    constructor <;> [linarith [this.1]; linarith [this.2]]

/-- C6 witness: two concrete 503 responses then a 200, with zero jitter. -/
theorem c6_two_backoffs_witness :
    safe_request (fun i => if i = 1 then .resp 503 "a" else if i = 2 then .resp 503 "b" else .resp 200 "ok")
      (fun _ => 0) "u" 5 = (.returned 200 "ok", ⟨3, [(1, 0), (2, 0)]⟩) :=
  (c6_two_backoffs
    (fun i => if i = 1 then .resp 503 "a" else if i = 2 then .resp 503 "b" else .resp 200 "ok")
    (fun _ => 0) "u" "a" "b" "ok" rfl rfl rfl
    (fun i => by norm_num)).1

/-- C7: when the attempt counter reaches max_retries and the outcome of every
attempt, the final one included, is retryable (a transport failure, a 429, a
marked 403 or a 5xx), safe_request raises the RuntimeError whose message
names the attempt count and the URL. -/
theorem c7_exhausted (net : Nat → Outcome) (jit : Nat → ℚ) (url : String)
    (max_retries : Nat) (hm : 1 ≤ max_retries)
    (hr : ∀ i, 1 ≤ i → i ≤ max_retries → retryableOutcome (net i) = true) :
    (safe_request net jit url max_retries).1 =
      .raised (runtimeErrorMsg max_retries url) ∧
    runtimeErrorMsg max_retries url =
      "Failed after " ++ toString max_retries ++ " attempts: " ++ url := by
  refine ⟨?_, rfl⟩
  exact safeRequestGo_exhaust net jit url max_retries max_retries 1 1 ⟨0, []⟩
    (by omega) hm hr

/-- C7 witness: five consecutive transport failures exhaust the default five
attempts. -/
theorem c7_exhausted_witness :
    (safe_request (fun _ => .exn) (fun _ => 0) "u" 5).1 =
      .raised (runtimeErrorMsg 5 "u") ∧
    runtimeErrorMsg 5 "u" = "Failed after " ++ toString 5 ++ " attempts: " ++ "u" :=
  c7_exhausted (fun _ => .exn) (fun _ => 0) "u" 5 (by norm_num)
    (fun i h1 h2 => rfl)

/-- C9: for every network behaviour and max_retries at least 1, safe_request
issues at most max_retries requests, performs at most max_retries - 1 sleeps,
and ends either by returning a response or by raising. -/
theorem c9_bounds (net : Nat → Outcome) (jit : Nat → ℚ) (url : String)
    (max_retries : Nat) (hm : 1 ≤ max_retries) :
    (safe_request net jit url max_retries).2.requests ≤ max_retries ∧
    (safe_request net jit url max_retries).2.sleeps.length ≤ max_retries - 1 ∧
    ((∃ s t, (safe_request net jit url max_retries).1 = .returned s t) ∨
      (∃ m, (safe_request net jit url max_retries).1 = .raised m)) := by
  have hb := safeRequestGo_bounds net jit url max_retries max_retries 1 1 ⟨0, []⟩
    (by omega)
  refine ⟨by simpa using hb.1, by simpa using hb.2, ?_⟩
  cases hres : (safe_request net jit url max_retries).1 with
  | returned s t => exact Or.inl ⟨s, t, rfl⟩
  | raised m => exact Or.inr ⟨m, rfl⟩

/-- C9 witness: with a single allowed attempt and a constant transport
failure, one request is issued and no sleep happens. -/
theorem c9_bounds_witness :
    (safe_request (fun _ => .exn) (fun _ => 0) "u" 1).2.requests ≤ 1 ∧
    (safe_request (fun _ => .exn) (fun _ => 0) "u" 1).2.sleeps.length ≤ 1 - 1 ∧
    ((∃ s t, (safe_request (fun _ => .exn) (fun _ => 0) "u" 1).1 = .returned s t) ∨
      (∃ m, (safe_request (fun _ => .exn) (fun _ => 0) "u" 1).1 = .raised m)) :=
  c9_bounds (fun _ => .exn) (fun _ => 0) "u" 1 (by norm_num)

/-! ## Claims about the collector -/

/-- Concrete device records used by witnesses. -/
def devA : DeviceRecord := ⟨some "id-a", none, none, none, none, none, none⟩

/-- A second concrete device record used by witnesses. -/
def devB : DeviceRecord := ⟨some "id-b", none, none, none, none, none, none⟩

/-- The collector loop on a chained page sequence whose pages all have
nonempty device lists: it succeeds, appends the device list of every page in
order, and issues one request per page. -/
lemma collectGo_chain (pages : List Page) :
    ∀ (cursor : Option String) (urls : List String) (acc : List DeviceRecord),
      cursorsChain pages = true → (∀ p ∈ pages, p.chromeosdevices ≠ []) →
      ∃ out, collectGo pages cursor urls acc = .ok out ∧
        out.devices = acc ++ (pages.map fun p => p.chromeosdevices).flatten ∧
        out.urls.length = urls.length + pages.length := by
  induction pages with
  | nil => intro cursor urls acc hc hd; simp [cursorsChain] at hc
  | cons p rest ih =>
    intro cursor urls acc hc hd
    obtain ⟨pd, pt⟩ := p
    have hpne : pd ≠ [] := by
      have := hd ⟨pd, pt⟩ (List.mem_cons_self _ _)
      simpa using this
    obtain ⟨d, ds, rfl⟩ : ∃ d ds, pd = d :: ds := by
      cases pd with
      | nil => exact absurd rfl hpne
      | cons d ds => exact ⟨d, ds, rfl⟩
    cases rest with
    | nil =>
      have htok : pyTruthy pt = false := by
        simpa [cursorsChain] using hc
      refine ⟨⟨acc ++ (d :: ds), urls ++ [pageUrl cursor]⟩, ?_, by simp, by simp⟩
      simp [collectGo, htok]
    | cons q rs =>
      have htok : pyTruthy pt = true ∧ cursorsChain (q :: rs) = true := by
        simpa [cursorsChain] using hc
      obtain ⟨out, hout, hdevs, hurls⟩ := ih pt
        (urls ++ [pageUrl cursor]) (acc ++ (d :: ds)) htok.2
        (fun x hx => hd x (List.mem_cons_of_mem _ hx))
      refine ⟨out, ?_, ?_, ?_⟩
      · rw [← hout]
        simp [collectGo, htok.1]
      · rw [hdevs]; simp
      · rw [hurls]; simp; omega

/-- C1 (amended): for every server page sequence whose cursors chain to a
final cursorless page and whose pages all have nonempty device lists,
get_all_chromebooks returns exactly the concatenation of the device
lists of the pages in cursor order with no deduplication, and issues exactly one HTTP
request per page. (Nonemptiness is forced by the debug print of line 138,
which indexes the first device of each page.) -/
theorem c1_collector_concat (pages : List Page) (hc : cursorsChain pages = true)
    (hd : ∀ p ∈ pages, p.chromeosdevices ≠ []) :
    ∃ out, get_all_chromebooks pages = .ok out ∧
      out.devices = (pages.map fun p => p.chromeosdevices).flatten ∧
      out.urls.length = pages.length := by
  obtain ⟨out, hout, hdevs, hurls⟩ := collectGo_chain pages none [] [] hc hd
  exact ⟨out, hout, by simpa using hdevs, by simpa using hurls⟩

/-- C1 witness: a two-page sequence is concatenated in order with two
requests issued. -/
theorem c1_collector_concat_witness :
    ∃ out, get_all_chromebooks [Page.mk [devA] (some "c1"), Page.mk [devB] none] =
        .ok out ∧
      out.devices = ([Page.mk [devA] (some "c1"), Page.mk [devB] none].map
        fun p => p.chromeosdevices).flatten ∧
      out.urls.length = [Page.mk [devA] (some "c1"), Page.mk [devB] none].length :=
  c1_collector_concat [Page.mk [devA] (some "c1"), Page.mk [devB] none]
    (by decide) (by decide)

/-- C1 counterexample: on the page sequence consisting of one cursorless page
with an empty device list, the claim as stated predicts the output to be the
(empty) concatenation, but get_all_chromebooks raises IndexError instead of
returning anything, because the debug print of line 138 indexes into the
empty page. -/
theorem c1_empty_page_counterexample :
    get_all_chromebooks [Page.mk [] none] = .error .indexError ∧
    ∀ out, get_all_chromebooks [Page.mk [] none] ≠ .ok out := by
  refine ⟨rfl, ?_⟩
  intro out h
  simp [get_all_chromebooks, collectGo] at h

/-- C2: a page whose device list is empty but whose continuation cursor is
present makes the collector raise IndexError (from the debug print of
line 138, print of page_devices[0]) instead of continuing to the next page;
the subsequent page is never reached. -/
theorem c2_empty_page_crash :
    get_all_chromebooks [Page.mk [] (some "c2"), Page.mk [devA] none] =
      .error .indexError := rfl

/-- C10: a nextPageToken equal to the empty string is treated exactly like an
absent cursor: the run on a page carrying the empty-string token is
identical to the run where that page is the last one with no token at all
(the loop terminates there, later pages are never requested), and the URL
built from an empty-string cursor is the bare base URL, with no pageToken
parameter appended. -/
theorem c10_empty_token (rest : List Page) (devs : List DeviceRecord)
    (cursor : Option String) (urls : List String) (acc : List DeviceRecord) :
    collectGo (Page.mk devs (some "") :: rest) cursor urls acc =
      collectGo [Page.mk devs none] cursor urls acc ∧
    pageUrl (some "") = base_url := by
  constructor
  · cases devs with
    | nil => rfl
    | cons d ds => simp [collectGo, pyTruthy]
  · simp [pageUrl, pyTruthy]

/-! ## Claims about the normalizer -/

/-- The Python (x or None) idiom never yields an empty string and collapses
absent and empty to none. -/
lemma orNone_spec (x : Option String) :
    ((x = none ∨ x = some "") → orNone x = none) ∧ orNone x ≠ some "" := by
  cases x with
  | none => simp [orNone, pyTruthy]
  | some s =>
    by_cases h : s = "" <;> simp [orNone, pyTruthy, h]

/-- C3 (amended): an absent raw value maps to none for all five optional
string fields; for mac_address and model a present-but-falsy (empty string)
value also maps to none and the emitted value is never the empty string;
serial_number, status and org_unit are passed through unchanged, so for them
a present empty string stays an empty string. -/
theorem c3_optional_fields (d : DeviceRecord) :
    ((d.macAddress = none ∨ d.macAddress = some "") →
      (normalizeDevice d).mac_address = none) ∧
    ((d.model = none ∨ d.model = some "") → (normalizeDevice d).model = none) ∧
    (normalizeDevice d).mac_address ≠ some "" ∧
    (normalizeDevice d).model ≠ some "" ∧
    (normalizeDevice d).serial_number = d.serialNumber ∧
    (normalizeDevice d).status = d.status ∧
    (normalizeDevice d).org_unit = d.orgUnitPath :=
  ⟨fun h => (orNone_spec d.macAddress).1 h,
   fun h => (orNone_spec d.model).1 h,
   (orNone_spec d.macAddress).2,
   (orNone_spec d.model).2, rfl, rfl, rfl⟩

/-- C3 witness: empty-string macAddress and model are normalized to none. -/
theorem c3_optional_fields_witness :
    (normalizeDevice ⟨none, none, some "", some "", none, none, none⟩).mac_address =
      none ∧
    (normalizeDevice ⟨none, none, some "", some "", none, none, none⟩).model = none := by
  have h := c3_optional_fields ⟨none, none, some "", some "", none, none, none⟩
  exact ⟨h.1 (Or.inr rfl), h.2.1 (Or.inr rfl)⟩

/-- C3 counterexample: a device record whose serialNumber is present but
falsy (the empty string) is normalized to the empty string, not to none —
the claim fails for serial_number (and likewise status and org_unit). -/
theorem c3_empty_serial_counterexample :
    (normalizeDevice ⟨none, some "", none, none, none, none, none⟩).serial_number =
      some "" ∧
    (some "" : Option String) ≠ none := ⟨rfl, by decide⟩

/-! ## Claims about last-sync date parsing -/

/-- A digit character rendered from a value below ten is a decimal digit. -/
lemma dChar_isDigit {n : Nat} (h : n ≤ 9) : (dChar n).isDigit = true := by
  interval_cases n <;> decide

/-- Reading back the value of a rendered digit character. -/
lemma dChar_digitVal {n : Nat} (h : n ≤ 9) : digitVal (dChar n) = n := by
  interval_cases n <;> decide

/-- A digit character is not the letter Z. -/
lemma dChar_ne_Z {n : Nat} (h : n ≤ 9) : dChar n ≠ 'Z' := by
  interval_cases n <;> decide

/-- A digit character is neither a plus nor a minus sign. -/
lemma dChar_ne_sign {n : Nat} (h : n ≤ 9) : ¬(dChar n = '+' ∨ dChar n = '-') := by
  interval_cases n <;> decide

/-- Replacing Z in a string that ends with a single Z appends the six
characters of the +00:00 offset. -/
lemma replaceZchars_append (l : List Char) (h : ∀ c ∈ l, c ≠ 'Z') :
    replaceZchars (l ++ [ 'Z' ]) =
      l ++ ('+' :: '0' :: '0' :: ':' :: '0' :: '0' :: []) := by
  induction l with
  | nil => rfl
  | cons c cs ih =>
    have hc : c ≠ 'Z' := h c (List.mem_cons_self _ _)
    have ih2 := ih (fun x hx => h x (List.mem_cons_of_mem _ hx))
    simp [replaceZchars, hc, ih2]

/-- Parsing back a two-digit zero-padded rendering. -/
lemma p2_pad (n : Nat) (h : n ≤ 99) (rest : List Char) :
    p2 (dChar (n / 10) :: dChar (n % 10) :: rest) = some (n, rest) := by
  have h1 : n / 10 ≤ 9 := by omega
  have h2 : n % 10 ≤ 9 := by omega
  simp only [p2, dChar_isDigit h1, dChar_isDigit h2, dChar_digitVal h1,
    dChar_digitVal h2, and_self, if_pos, if_true]
  have hn : 10 * (n / 10) + n % 10 = n := by omega
  rw [hn]

/-- splitTz walks past any character that is not a sign. -/
lemma splitTz_cons_nosign (c : Char) (cs : List Char) (h : ¬(c = '+' ∨ c = '-')) :
    splitTz (c :: cs) = (c :: (splitTz cs).1, (splitTz cs).2) := by
  simp [splitTz, h]

/-- splitTz stops at a plus sign. -/
lemma splitTz_cons_plus (cs : List Char) : splitTz ('+' :: cs) = ([], some ('+', cs)) := by
  simp [splitTz]

/-- Parsing back a rendered HH:MM:SS time. -/
lemma parseHMSF_pad (a b c : Nat) (ha : a ≤ 99) (hb : b ≤ 99) (hc : c ≤ 99) :
    parseHMSF (dChar (a / 10) :: dChar (a % 10) :: ':' :: dChar (b / 10) ::
      dChar (b % 10) :: ':' :: dChar (c / 10) :: dChar (c % 10) :: []) =
      some (a, b, c) := by
  simp [parseHMSF, p2_pad a ha, p2_pad b hb, p2_pad c hc]

/-- A rendered HH:MM:SS time followed by the +00:00 offset is a valid
isoformat time tail when its components are in range. -/
lemma validTimeTail_pad (hh mi ss : Nat) (h1 : hh ≤ 23) (h2 : mi ≤ 59) (h3 : ss ≤ 59) :
    validTimeTail (dChar (hh / 10) :: dChar (hh % 10) :: ':' :: dChar (mi / 10) ::
      dChar (mi % 10) :: ':' :: dChar (ss / 10) :: dChar (ss % 10) :: '+' :: '0' ::
      '0' :: ':' :: '0' :: '0' :: []) = true := by
  have hsp : splitTz (dChar (hh / 10) :: dChar (hh % 10) :: ':' :: dChar (mi / 10) ::
      dChar (mi % 10) :: ':' :: dChar (ss / 10) :: dChar (ss % 10) :: '+' :: '0' ::
      '0' :: ':' :: '0' :: '0' :: []) =
      ([dChar (hh / 10), dChar (hh % 10), ':', dChar (mi / 10), dChar (mi % 10),
        ':', dChar (ss / 10), dChar (ss % 10)], some ('+', ['0', '0', ':', '0', '0'])) := by
    rw [splitTz_cons_nosign _ _ (dChar_ne_sign (by omega)),
      splitTz_cons_nosign _ _ (dChar_ne_sign (by omega)),
      splitTz_cons_nosign _ _ (by decide),
      splitTz_cons_nosign _ _ (dChar_ne_sign (by omega)),
      splitTz_cons_nosign _ _ (dChar_ne_sign (by omega)),
      splitTz_cons_nosign _ _ (by decide),
      splitTz_cons_nosign _ _ (dChar_ne_sign (by omega)),
      splitTz_cons_nosign _ _ (dChar_ne_sign (by omega)),
      splitTz_cons_plus]
  simp only [validTimeTail, hsp]
  simp [parseHMSF_pad hh mi ss (by omega) (by omega) (by omega), h1, h2, h3]
  decide

/-- The datetime.date constructor never accepts a day beyond 31. -/
lemma daysInMonth_le (y m : Nat) : daysInMonth y m ≤ 31 := by
  unfold daysInMonth
  split
  · split <;> norm_num
  · split <;> norm_num

/-- A well-formed ISO-8601 timestamp with a literal Z suffix parses, after
the Z replacement of line 57, to exactly its calendar date: the time of day
and the UTC offset are discarded. -/
lemma parseLastSync_isoZ (y mo dd hh mi ss : Nat) (hy1 : 1 ≤ y) (hy2 : y ≤ 9999)
    (hmo1 : 1 ≤ mo) (hmo2 : mo ≤ 12) (hdd1 : 1 ≤ dd) (hdd2 : dd ≤ daysInMonth y mo)
    (hhh : hh ≤ 23) (hmi : mi ≤ 59) (hss : ss ≤ 59) :
    parseLastSync (isoZString y mo dd hh mi ss) = some ⟨y, mo, dd⟩ := by
  have hdm : daysInMonth y mo ≤ 31 := daysInMonth_le y mo
  have hdata : (isoZString y mo dd hh mi ss).data =
      ([dChar (y / 1000), dChar (y / 100 % 10), dChar (y / 10 % 10), dChar (y % 10),
        '-', dChar (mo / 10), dChar (mo % 10), '-', dChar (dd / 10), dChar (dd % 10),
        'T', dChar (hh / 10), dChar (hh % 10), ':', dChar (mi / 10), dChar (mi % 10),
        ':', dChar (ss / 10), dChar (ss % 10)] ++ [ 'Z' ]) := by
    simp [isoZString, pad4, pad2]
  have hnoz : ∀ c ∈ [dChar (y / 1000), dChar (y / 100 % 10), dChar (y / 10 % 10),
      dChar (y % 10), '-', dChar (mo / 10), dChar (mo % 10), '-', dChar (dd / 10),
      dChar (dd % 10), 'T', dChar (hh / 10), dChar (hh % 10), ':', dChar (mi / 10),
      dChar (mi % 10), ':', dChar (ss / 10), dChar (ss % 10)], c ≠ 'Z' := by
    intro c hcmem
    fin_cases hcmem <;> first
      | decide
      | exact dChar_ne_Z (by omega)
  unfold parseLastSync
  rw [hdata, replaceZchars_append _ hnoz]
  simp only [List.cons_append, List.nil_append]
  have e1 : y / 100 / 10 = y / 1000 := by rw [Nat.div_div_eq_div_mul]
  have e2 : y / 10 / 10 = y / 100 := by rw [Nat.div_div_eq_div_mul]
  have hd1 : y / 1000 ≤ 9 := by omega
  have hd2 : y / 100 % 10 ≤ 9 := by omega
  have hd3 : y / 10 % 10 ≤ 9 := by omega
  have hd4 : y % 10 ≤ 9 := by omega
  have hd5 : mo / 10 ≤ 9 := by omega
  have hd6 : mo % 10 ≤ 9 := by omega
  have hd7 : dd / 10 ≤ 9 := by omega
  have hd8 : dd % 10 ≤ 9 := by omega
  have hyv : 1000 * (y / 1000) + 100 * (y / 100 % 10) + 10 * (y / 10 % 10) + y % 10 = y := by
    omega
  have hmov : 10 * (mo / 10) + mo % 10 = mo := by omega
  have hddv : 10 * (dd / 10) + dd % 10 = dd := by omega
  simp only [fromisoformatDate, dChar_isDigit hd1, dChar_isDigit hd2,
    dChar_isDigit hd3, dChar_isDigit hd4, dChar_isDigit hd5, dChar_isDigit hd6,
    dChar_isDigit hd7, dChar_isDigit hd8, dChar_digitVal hd1, dChar_digitVal hd2,
    dChar_digitVal hd3, dChar_digitVal hd4, dChar_digitVal hd5, dChar_digitVal hd6,
    dChar_digitVal hd7, dChar_digitVal hd8, hyv, hmov, hddv]
  simp [hy1, hmo1, hmo2, hdd1, hdd2, validTimeTail_pad hh mi ss hhh hmi hss]

/-- C8: when the raw lastSync value is absent, falsy, or fails to parse, the
emitted row has no last_sync_date and every other field is exactly what it
would be with the timestamp ignored, and no exception escapes (the
normalizer is a total function); when the raw value is a well-formed
ISO-8601 timestamp with a literal Z suffix, the emitted last_sync_date is
exactly its calendar date, with the time of day and the timezone discarded. -/
theorem c8_last_sync (d : DeviceRecord) :
    ((∀ s, d.lastSync = some s → parseLastSync s = none) →
      (normalizeDevice d).last_sync_date = none ∧
      normalizeDevice d = normalizeDevice { d with lastSync := none }) ∧
    (∀ y mo dd hh mi ss, 1 ≤ y → y ≤ 9999 → 1 ≤ mo → mo ≤ 12 → 1 ≤ dd →
      dd ≤ daysInMonth y mo → hh ≤ 23 → mi ≤ 59 → ss ≤ 59 →
      d.lastSync = some (isoZString y mo dd hh mi ss) →
      (normalizeDevice d).last_sync_date = some ⟨y, mo, dd⟩) := by
  constructor
  · intro hfail
    cases hls : d.lastSync with
    | none => exact ⟨by simp [normalizeDevice, hls], by simp [normalizeDevice, hls]⟩
    | some s =>
      by_cases hse : s = ""
      · exact ⟨by simp [normalizeDevice, hls, hse],
          by simp [normalizeDevice, hls, hse]⟩
      · have hp : parseLastSync s = none := hfail s hls
        exact ⟨by simp [normalizeDevice, hls, hse, hp],
          by simp [normalizeDevice, hls, hse, hp]⟩
  · intro y mo dd hh mi ss hy1 hy2 hmo1 hmo2 hdd1 hdd2 hhh hmi hss hls
    have hne : isoZString y mo dd hh mi ss ≠ "" := by
      intro h
      have := congrArg String.data h
      simp [isoZString, pad4, pad2] at this
    simp [normalizeDevice, hls, hne,
      parseLastSync_isoZ y mo dd hh mi ss hy1 hy2 hmo1 hmo2 hdd1 hdd2 hhh hmi hss]

/-- C8 witness: an unparseable raw value degrades to no date, and a leap-day
timestamp with a Z suffix yields exactly its calendar date. -/
theorem c8_last_sync_witness :
    (normalizeDevice ⟨none, none, none, none, none, none, some "garbage"⟩).last_sync_date =
      none ∧
    (normalizeDevice ⟨none, none, none, none, none, none,
      some (isoZString 2024 2 29 23 59 59)⟩).last_sync_date = some ⟨2024, 2, 29⟩ := by
  constructor
  · exact ((c8_last_sync ⟨none, none, none, none, none, none, some "garbage"⟩).1
      (fun s hs => by cases hs; decide)).1
  · exact (c8_last_sync ⟨none, none, none, none, none, none,
      some (isoZString 2024 2 29 23 59 59)⟩).2 2024 2 29 23 59 59
      (by norm_num) (by norm_num) (by norm_num) (by norm_num) (by norm_num)
      (by decide) (by norm_num) (by norm_num) (by norm_num) rfl
